import Mathlib

/-!
Shallow embedding of the connectivity supervisor of
`src/rangeextend.ino` (ESP8266 WiFi range extender).

The supervisor's global variables become the fields of `St`; external
collaborators (the WiFi link driver, the NAPT subsystem, the heap
reader, the outbound-connection primitive) are modelled by an
environment record `Env` whose fields give the outcome of each external
call a cycle may make.  Each cycle function of the sketch becomes a
pure function `St → Env → ...` that also reports the externally visible
actions the claims talk about (forced-reconnect attempts, forwarding
sheds, restart calls, probe attempts).
-/

namespace RangeExtend

/-- Configuration constants of the sketch (lines 26-42). -/
def AP_SSID : String := "WiFi_Extender"

def AP_PASS : String := "123456789"

def RECONNECT_INTERVAL : Nat := 15000

def STATUS_INTERVAL : Nat := 30000

def REBOOT_INTERVAL : Nat := 12 * 60 * 60 * 1000

def INTERNET_CHECK_INTERVAL : Nat := 60000

def CONNECTION_WATCHDOG : Nat := 10000

/-- Low-memory trigger: `freeHeap < 8000` enters the cleanup branch (line 205). -/
def MEM_LOW_THRESHOLD : Nat := 8000

/-- Re-enable bound: NAPT is re-enabled only when the fresh heap reading
is `> 6000` (line 220). -/
def MEM_REENABLE_THRESHOLD : Nat := 6000

/-- Emergency bound: a post-cleanup heap reading `< 4000` restarts (line 226). -/
def MEM_EMERGENCY_THRESHOLD : Nat := 4000

/-- Forced-reconnect ceiling checked in the slow status cycle (line 425). -/
def RECONNECT_CEILING : Nat := 10

/-- Supervisor state: the sketch's global variables (lines 49-56), the
static locals of `connectionWatchdog` (`failCount`) and of `updateLED`
(`lastBlink`, `ledState`), plus the LED pin level (`ledLit` = pin LOW,
i.e. lit). -/
structure St where
  stationOK : Bool
  naptOK : Bool
  internetOK : Bool
  failCount : Nat
  reconnectCount : Nat
  lastCheck : Nat
  lastWatchdog : Nat
  lastMemoryCheck : Nat
  bootTime : Nat
  lastBlink : Nat
  ledState : Bool
  ledLit : Bool
deriving Repr, DecidableEq

/-- Outcomes of the external calls a cycle may make:
`linkConnected` is `WiFi.status() == WL_CONNECTED`; `connectSuccess` is
whether `connectToRouter`'s bounded wait ends connected; `naptInit1`
and `naptInit2` are the outcomes of the primary (300,5) and fallback
(200,3) `ip_napt_init` + `ip_napt_enable_no` attempts; `heap1`,
`heap2`, `heap3` are the successive `ESP.getFreeHeap()` readings of one
`checkMemory` cycle (lines 203, 220, 226); `modeApSta` is whether
`WiFi.getMode() == WIFI_AP_STA`; `apStartOK` the outcome of
`startAccessPoint`; `conn host port` the outcome of
`client.connect(host, port)`. -/
structure Env where
  linkConnected : Bool
  connectSuccess : Bool
  naptInit1 : Bool
  naptInit2 : Bool
  heap1 : Nat
  heap2 : Nat
  heap3 : Nat
  modeApSta : Bool
  apStartOK : Bool
  conn : String → Nat → Bool

/-- `connectToRouter` (lines 62-88): waits on the link driver, then sets
`stationOK` from the final link status and returns it. -/
def connectToRouter (s : St) (e : Env) : St × Bool :=
  if e.connectSuccess then ({ s with stationOK := true }, true)
  else ({ s with stationOK := false }, false)

/-- `enableNAPT` (lines 119-142): refuses when `stationOK` is false;
otherwise tries the primary NAPT table size, then once more with the
minimal size, setting `naptOK` to the outcome. -/
def enableNAPT (s : St) (e : Env) : St × Bool :=
  if !s.stationOK then (s, false)
  else if e.naptInit1 then ({ s with naptOK := true }, true)
  else if e.naptInit2 then ({ s with naptOK := true }, true)
  else ({ s with naptOK := false }, false)

/-- `testServers` (line 154). -/
def testServers : List String := ["8.8.8.8", "1.1.1.1", "google.com"]

/-- `testPorts` (line 155). -/
def testPorts : List Nat := [53, 53, 80]

/-- The ordered `(host, port)` endpoint list the probe loop walks. -/
def testEndpoints : List (String × Nat) := testServers.zip testPorts

/-- The probe loop of `testInternet` (lines 157-165): first successful
`connect` wins and stops the loop.  Returns the overall outcome and the
list of endpoints actually attempted, in order. -/
def probeLoop (conn : String → Nat → Bool) :
    List (String × Nat) → Bool × List (String × Nat)
  | [] => (false, [])
  | ep :: rest =>
    if conn ep.1 ep.2 then (true, [ep])
    else
      let r := probeLoop conn rest
      (r.1, ep :: r.2)

/-- Result of a `testInternet` call: the new state, the returned Bool,
and the endpoints attempted. -/
structure NetRes where
  state : St
  ret : Bool
  attempted : List (String × Nat)
deriving Repr

/-- `testInternet` (lines 144-170): with the station link or NAPT down
it records `internetOK := false` and returns false without touching the
network; otherwise it walks the endpoint list and records the result. -/
def testInternet (s : St) (e : Env) : NetRes :=
  if !s.stationOK || !s.naptOK then
    { state := { s with internetOK := false }, ret := false, attempted := [] }
  else
    let r := probeLoop e.conn testEndpoints
    { state := { s with internetOK := r.1 }, ret := r.1, attempted := r.2 }

/-- Result of one `connectionWatchdog` cycle: the new state and whether
the forced-reconnect path (disconnect, pause, fresh connect) ran. -/
structure WdRes where
  state : St
  reconnectAttempted : Bool
deriving Repr

/-- `connectionWatchdog` (lines 172-199): on a down link, bump
`failCount` and clear all three flags; on the 3rd consecutive failure
force a reconnect (`WiFi.disconnect`, pause, `connectToRouter`, then
`enableNAPT` if that succeeded), zero `failCount` and bump
`reconnectCount`.  On an up link, zero `failCount` and, if `stationOK`
was stale-false, set it and re-enable NAPT when needed. -/
def connectionWatchdog (s : St) (e : Env) : WdRes :=
  if !e.linkConnected then
    let s1 : St := { s with
      failCount := s.failCount + 1
      stationOK := false
      naptOK := false
      internetOK := false }
    if s1.failCount ≥ 3 then
      let s2 := (connectToRouter s1 e).1
      let s3 := if s2.stationOK then (enableNAPT s2 e).1 else s2
      { state := { s3 with
          failCount := 0
          reconnectCount := s3.reconnectCount + 1 }
        reconnectAttempted := true }
    else
      { state := s1, reconnectAttempted := false }
  else
    let s1 : St := { s with failCount := 0 }
    if !s1.stationOK then
      let s2 : St := { s1 with stationOK := true }
      let s3 := if !s2.naptOK then (enableNAPT s2 e).1 else s2
      { state := s3, reconnectAttempted := false }
    else
      { state := s1, reconnectAttempted := false }

/-- Result of one `checkMemory` cycle: the new state, whether NAPT was
shed to reclaim memory, and whether `ESP.restart()` was called. -/
structure MemRes where
  state : St
  shedNapt : Bool
  restartCalled : Bool
deriving Repr

/-- `checkMemory` (lines 201-231): below the low threshold it sheds
NAPT if enabled, re-enables it when the station is up, NAPT is off and
a fresh reading clears the re-enable bound, and finally restarts when a
last reading is below the emergency bound.  `internetOK` is never
touched here. -/
def checkMemory (s : St) (e : Env) : MemRes :=
  if e.heap1 < MEM_LOW_THRESHOLD then
    let shed := s.naptOK
    let s1 : St := if s.naptOK then { s with naptOK := false } else s
    let s2 : St :=
      if s1.stationOK && !s1.naptOK && decide (e.heap2 > MEM_REENABLE_THRESHOLD) then
        (enableNAPT s1 e).1
      else s1
    { state := s2, shedNapt := shed,
      restartCalled := decide (e.heap3 < MEM_EMERGENCY_THRESHOLD) }
  else
    { state := s, shedNapt := false, restartCalled := false }

/-- `checkAPStatus` (lines 233-250): when the AP+STA mode was lost,
restart the AP, and if the link is also down, reconnect to the router
and re-enable NAPT on success.  A failed `connectToRouter` here clears
`stationOK` while leaving `naptOK` untouched. -/
def checkAPStatus (s : St) (e : Env) : St :=
  if !e.modeApSta then
    if !e.linkConnected then
      let s1 := (connectToRouter s e).1
      if s1.stationOK then (enableNAPT s1 e).1 else s1
    else s
  else s

/-- Result of one slow status cycle: new state and whether the
reconnect-ceiling emergency restart was called. -/
structure StatusRes where
  state : St
  restartCalled : Bool
deriving Repr

/-- The 30-second block of `loop` (lines 404-430): `checkAPStatus`,
then `testInternet` when `stationOK && naptOK`, the status print, and
the emergency restart when `reconnectCount > 10`. -/
def statusCycle (s : St) (e : Env) : StatusRes :=
  let s1 := checkAPStatus s e
  let s2 := if s1.stationOK && s1.naptOK then (testInternet s1 e).state else s1
  { state := s2, restartCalled := decide (s2.reconnectCount > RECONNECT_CEILING) }

/-- 32-bit wraparound-safe `now - then` as computed on `unsigned long`. -/
def wsub (a b : Nat) : Nat := (2 ^ 32 + a % 2 ^ 32 - b % 2 ^ 32) % 2 ^ 32

/-- `updateLED` (lines 252-282): maps the three flags to solid-on or a
blink period (1000 / 300 / 100 ms) and toggles the LED when the period
elapsed.  Only `ledState`, `ledLit` and `lastBlink` are written. -/
def updateLED (s : St) (now : Nat) : St :=
  if s.stationOK && s.naptOK && s.internetOK then
    { s with ledLit := true }
  else if s.stationOK && s.naptOK then
    if wsub now s.lastBlink > 1000 then
      { s with ledState := !s.ledState, ledLit := !s.ledState, lastBlink := now }
    else s
  else if s.stationOK then
    if wsub now s.lastBlink > 300 then
      { s with ledState := !s.ledState, ledLit := !s.ledState, lastBlink := now }
    else s
  else
    if wsub now s.lastBlink > 100 then
      { s with ledState := !s.ledState, ledLit := !s.ledState, lastBlink := now }
    else s

/-- `handleRoot` (lines 288-321): renders the status page from a
read-only snapshot of the flags, the AP client count and the free heap,
and sends it; the supervisor state is returned untouched. -/
def handleRoot (s : St) (clients freeHeap : Nat) : St × String :=
  let head := "<!DOCTYPE html><html><head><meta charset=\x27UTF-8\x27><meta name=\x27viewport\x27 content=\x27width=device-width,initial-scale=1\x27><meta http-equiv=\x27refresh\x27 content=\x2730\x27><title>WiFi Extender</title>"
  let style1 := "<style>body\x7bfont-family:Arial;margin:20px;background:#f0f0f0\x7d.info\x7bbackground:white;padding:15px;margin:10px 0;border-radius:5px\x7d"
  let style2 := ".ok\x7bbackground:#d4f4dd;color:#0f5132\x7d.error\x7bbackground:#f8d7da;color:#721c24\x7d.warning\x7bbackground:#fff3cd;color:#856404\x7d</style></head><body>"
  let html0 := head ++ style1 ++ style2 ++ "<h1>WiFi Extender</h1>"
  let status :=
    if s.stationOK && s.naptOK && s.internetOK then
      "<div class=\x27info ok\x27>OK Internet Working</div>"
    else if s.stationOK && s.naptOK then
      "<div class=\x27info warning\x27>Testing Internet</div>"
    else
      "<div class=\x27info error\x27>No Connection</div>"
  let info := "<div class=\x27info\x27><strong>Network:</strong> " ++ AP_SSID
    ++ "<br><strong>Password:</strong> " ++ AP_PASS
    ++ "<br><strong>Clients:</strong> " ++ toString clients
    ++ "<br><strong>Memory:</strong> " ++ toString freeHeap
    ++ " bytes<br><strong>Router:</strong> "
    ++ (if s.stationOK then "Connected" else "Disconnected")
    ++ "</div>"
  let tail := "<div class=\x27info\x27><strong>LED:</strong><br>Solid=Working, Slow blink=No internet, Fast=Connecting</div></body></html>"
  (s, html0 ++ status ++ info ++ tail)

/-! Helper lemmas shared by the claim theorems. -/

/-- `connectToRouter` only writes `stationOK`. -/
theorem connectToRouter_frame (s : St) (e : Env) :
    (connectToRouter s e).1 = { s with stationOK := e.connectSuccess } := by
  unfold connectToRouter
  cases e.connectSuccess <;> simp

/-- `enableNAPT` never changes `reconnectCount`. -/
theorem enableNAPT_reconnectCount (s : St) (e : Env) :
    ((enableNAPT s e).1).reconnectCount = s.reconnectCount := by
  cases hs : s.stationOK <;> cases h1 : e.naptInit1 <;> cases h2 : e.naptInit2 <;>
    simp [enableNAPT, hs, h1, h2]

/-- `checkAPStatus` never changes `reconnectCount`. -/
theorem checkAPStatus_reconnectCount (s : St) (e : Env) :
    (checkAPStatus s e).reconnectCount = s.reconnectCount := by
  cases hm : e.modeApSta <;> cases hl : e.linkConnected <;> cases hc : e.connectSuccess <;>
    cases h1 : e.naptInit1 <;> cases h2 : e.naptInit2 <;>
    simp [checkAPStatus, connectToRouter, enableNAPT, hm, hl, hc, h1, h2]

/-- `testInternet` never changes `reconnectCount`. -/
theorem testInternet_reconnectCount (s : St) (e : Env) :
    ((testInternet s e).state).reconnectCount = s.reconnectCount := by
  unfold testInternet
  split <;> simp

/-- C10: with the station link down or forwarding disabled, the
reachability probe records `internetOK := false`, returns false, and
attempts no endpoint at all. -/
theorem C10_probe_guard (s : St) (e : Env)
    (h : s.stationOK = false ∨ s.naptOK = false) :
    (testInternet s e).state.internetOK = false ∧
    (testInternet s e).ret = false ∧
    (testInternet s e).attempted = [] := by
  rcases h with h | h <;> simp [testInternet, h]

/-- State used to witness C10: NAPT up but the station link down. -/
def w10St : St :=
  { stationOK := false, naptOK := true, internetOK := true
    failCount := 0, reconnectCount := 0
    lastCheck := 0, lastWatchdog := 0, lastMemoryCheck := 0, bootTime := 0
    lastBlink := 0, ledState := false, ledLit := false }

/-- Environment whose probe would succeed everywhere, to show the guard
alone suppresses the attempts. -/
def w10Env : Env :=
  { linkConnected := true, connectSuccess := true
    naptInit1 := true, naptInit2 := true
    heap1 := 50000, heap2 := 50000, heap3 := 50000
    modeApSta := true, apStartOK := true
    conn := fun _ _ => true }

/-- C10 witness: the guard fires on a concrete state with the link down. -/
theorem C10_probe_guard_witness :
    (testInternet w10St w10Env).state.internetOK = false ∧
    (testInternet w10St w10Env).ret = false ∧
    (testInternet w10St w10Env).attempted = [] :=
  C10_probe_guard w10St w10Env (Or.inl rfl)

/-- C9: `updateLED` and `handleRoot` leave every supervisor field
(three flags, both counters, all four timer timestamps) unchanged;
`updateLED` only writes the blink-phase fields. -/
theorem C9_frame (s : St) (now clients freeHeap : Nat) :
    ((updateLED s now).stationOK = s.stationOK ∧
     (updateLED s now).naptOK = s.naptOK ∧
     (updateLED s now).internetOK = s.internetOK ∧
     (updateLED s now).failCount = s.failCount ∧
     (updateLED s now).reconnectCount = s.reconnectCount ∧
     (updateLED s now).lastCheck = s.lastCheck ∧
     (updateLED s now).lastWatchdog = s.lastWatchdog ∧
     (updateLED s now).lastMemoryCheck = s.lastMemoryCheck ∧
     (updateLED s now).bootTime = s.bootTime) ∧
    (handleRoot s clients freeHeap).1 = s := by
  constructor
  · unfold updateLED
    repeat' split <;> simp_all
  · rfl

/-- C8: the slow status cycle calls the emergency restart exactly when
the forced-reconnect counter exceeds the ceiling of 10 at the start of
the cycle (neither `checkAPStatus` nor the probe changes the counter). -/
theorem C8_reconnect_ceiling (s : St) (e : Env) :
    (statusCycle s e).restartCalled = decide (s.reconnectCount > RECONNECT_CEILING) := by
  simp only [statusCycle]
  split <;> simp [testInternet_reconnectCount, checkAPStatus_reconnectCount]

/-- C7: with the prerequisites up, the probe walks the ordered endpoint
list `("8.8.8.8",53), ("1.1.1.1",53), ("google.com",80)`; the first
success sets `internetOK := true` and stops the loop, so later
endpoints are never attempted; if all three fail, `internetOK` is set
false after all three were attempted. -/
theorem C7_probe_order (s : St) (e : Env)
    (hs : s.stationOK = true) (hn : s.naptOK = true) :
    (e.conn "8.8.8.8" 53 = true →
      (testInternet s e).state.internetOK = true ∧
      (testInternet s e).attempted = [("8.8.8.8", 53)]) ∧
    (e.conn "8.8.8.8" 53 = false → e.conn "1.1.1.1" 53 = true →
      (testInternet s e).state.internetOK = true ∧
      (testInternet s e).attempted = [("8.8.8.8", 53), ("1.1.1.1", 53)]) ∧
    (e.conn "8.8.8.8" 53 = false → e.conn "1.1.1.1" 53 = false →
     e.conn "google.com" 80 = true →
      (testInternet s e).state.internetOK = true ∧
      (testInternet s e).attempted = testEndpoints) ∧
    (e.conn "8.8.8.8" 53 = false → e.conn "1.1.1.1" 53 = false →
     e.conn "google.com" 80 = false →
      (testInternet s e).state.internetOK = false ∧
      (testInternet s e).attempted = testEndpoints) := by
  cases h0 : e.conn "8.8.8.8" 53 <;> cases h1 : e.conn "1.1.1.1" 53 <;>
    cases h2 : e.conn "google.com" 80 <;>
    simp [testInternet, probeLoop, testEndpoints, testServers, testPorts, hs, hn, h0, h1, h2]

/-- Healthy state used by the C7 witness. -/
def w7St : St :=
  { stationOK := true, naptOK := true, internetOK := false
    failCount := 0, reconnectCount := 0
    lastCheck := 0, lastWatchdog := 0, lastMemoryCheck := 0, bootTime := 0
    lastBlink := 0, ledState := false, ledLit := false }

/-- Probe environment of the spec scenario: `8.8.8.8` refuses,
`1.1.1.1` accepts, `google.com` would accept but must not be tried. -/
def w7Env : Env :=
  { linkConnected := true, connectSuccess := true
    naptInit1 := true, naptInit2 := true
    heap1 := 50000, heap2 := 50000, heap3 := 50000
    modeApSta := true, apStartOK := true
    conn := fun h _ => h == "1.1.1.1" || h == "google.com" }

/-- C7 witness: in the spec scenario the probe stops after the second
endpoint with `internetOK = true`. -/
theorem C7_probe_order_witness :
    (testInternet w7St w7Env).state.internetOK = true ∧
    (testInternet w7St w7Env).attempted = [("8.8.8.8", 53), ("1.1.1.1", 53)] :=
  (C7_probe_order w7St w7Env rfl rfl).2.1 rfl rfl

/-- A down-link watchdog cycle that has not yet reached 3 consecutive
failures: flags cleared, `failCount` bumped, no reconnect attempt. -/
theorem wd_down_short (s : St) (e : Env) (hl : e.linkConnected = false)
    (hf : s.failCount + 1 < 3) :
    connectionWatchdog s e =
      { state := { s with
          failCount := s.failCount + 1
          stationOK := false
          naptOK := false
          internetOK := false }
        reconnectAttempted := false } := by
  have hn : ¬ (s.failCount + 1 ≥ 3) := by omega
  simp [connectionWatchdog, hl, hn]

/-- A down-link watchdog cycle whose bumped counter reaches 3: the
forced-reconnect path runs, zeroes the counter and bumps
`reconnectCount`, whatever the reconnect and NAPT outcomes. -/
theorem wd_down_third (s : St) (e : Env) (hl : e.linkConnected = false)
    (hf : s.failCount + 1 ≥ 3) :
    (connectionWatchdog s e).reconnectAttempted = true ∧
    (connectionWatchdog s e).state.failCount = 0 ∧
    (connectionWatchdog s e).state.reconnectCount = s.reconnectCount + 1 := by
  cases hc : e.connectSuccess <;> cases h1 : e.naptInit1 <;> cases h2 : e.naptInit2 <;>
    simp [connectionWatchdog, connectToRouter, enableNAPT, hl, hf, hc, h1, h2]

/-- C2: starting a maximal down-streak (so the consecutive-failure
counter is 0), three consecutive not-connected watchdog cycles attempt
no reconnect on the first two and exactly one forced reconnect on the
third; afterwards `failCount = 0` and `reconnectCount` grew by exactly
1, regardless of the reconnect outcome. -/
theorem C2_forced_reconnect (s : St) (e1 e2 e3 : Env) (h : s.failCount = 0)
    (h1 : e1.linkConnected = false) (h2 : e2.linkConnected = false)
    (h3 : e3.linkConnected = false) :
    (connectionWatchdog s e1).reconnectAttempted = false ∧
    (connectionWatchdog (connectionWatchdog s e1).state e2).reconnectAttempted = false ∧
    (connectionWatchdog (connectionWatchdog (connectionWatchdog s e1).state e2).state
        e3).reconnectAttempted = true ∧
    (connectionWatchdog (connectionWatchdog (connectionWatchdog s e1).state e2).state
        e3).state.failCount = 0 ∧
    (connectionWatchdog (connectionWatchdog (connectionWatchdog s e1).state e2).state
        e3).state.reconnectCount = s.reconnectCount + 1 := by
  have c1 := wd_down_short s e1 h1 (by omega)
  have f1 : (connectionWatchdog s e1).state.failCount = 1 := by rw [c1]; simp [h]
  have r1 : (connectionWatchdog s e1).state.reconnectCount = s.reconnectCount := by
    rw [c1]
  have c2 := wd_down_short (connectionWatchdog s e1).state e2 h2 (by omega)
  have f2 : (connectionWatchdog (connectionWatchdog s e1).state e2).state.failCount = 2 := by
    rw [c2]; simp [f1]
  have r2 : (connectionWatchdog (connectionWatchdog s e1).state e2).state.reconnectCount
      = s.reconnectCount := by
    rw [c2]; simp [r1]
  have c3 := wd_down_third (connectionWatchdog (connectionWatchdog s e1).state e2).state e3
    h3 (by omega)
  refine ⟨by rw [c1], by rw [c2], c3.1, c3.2.1, ?_⟩
  rw [c3.2.2, r2]

/-- Fully healthy state with a fresh failure counter, for the C2 witness. -/
def w2St : St :=
  { stationOK := true, naptOK := true, internetOK := true
    failCount := 0, reconnectCount := 5
    lastCheck := 0, lastWatchdog := 0, lastMemoryCheck := 0, bootTime := 0
    lastBlink := 0, ledState := false, ledLit := false }

/-- Down-link environment whose forced reconnect fails outright. -/
def w2Env : Env :=
  { linkConnected := false, connectSuccess := false
    naptInit1 := false, naptInit2 := false
    heap1 := 50000, heap2 := 50000, heap3 := 50000
    modeApSta := true, apStartOK := true
    conn := fun _ _ => false }

/-- C2 witness: three concrete down cycles from a fresh counter. -/
theorem C2_forced_reconnect_witness :
    (connectionWatchdog w2St w2Env).reconnectAttempted = false ∧
    (connectionWatchdog (connectionWatchdog w2St w2Env).state w2Env).reconnectAttempted = false ∧
    (connectionWatchdog (connectionWatchdog (connectionWatchdog w2St w2Env).state w2Env).state
        w2Env).reconnectAttempted = true ∧
    (connectionWatchdog (connectionWatchdog (connectionWatchdog w2St w2Env).state w2Env).state
        w2Env).state.failCount = 0 ∧
    (connectionWatchdog (connectionWatchdog (connectionWatchdog w2St w2Env).state w2Env).state
        w2Env).state.reconnectCount = w2St.reconnectCount + 1 :=
  C2_forced_reconnect w2St w2Env w2Env w2Env rfl rfl rfl rfl

/-- The reachability half of the flag chain: `internetOK → naptOK`. -/
def reachInv (s : St) : Prop := s.internetOK = true → s.naptOK = true

/-- The forwarding half of the flag chain: `naptOK → stationOK`. -/
def fwdInv (s : St) : Prop := s.naptOK = true → s.stationOK = true

/-- `connectionWatchdog` preserves `internetOK → naptOK`. -/
theorem watchdog_reachInv (s : St) (e : Env) (h : reachInv s) :
    reachInv (connectionWatchdog s e).state := by
  unfold reachInv at h ⊢
  cases hl : e.linkConnected <;> cases hs : s.stationOK <;> cases hn : s.naptOK <;>
    cases hio : s.internetOK <;> cases hc : e.connectSuccess <;>
    cases h1 : e.naptInit1 <;> cases h2 : e.naptInit2 <;>
    simp_all [connectionWatchdog, connectToRouter, enableNAPT] <;>
    try (split <;> simp_all)

/-- `testInternet` establishes `internetOK → naptOK` outright: a
success is only recorded with `naptOK` already true, and otherwise
`internetOK` is forced false. -/
theorem testInternet_reachInv (s : St) (e : Env) :
    reachInv (testInternet s e).state := by
  unfold reachInv
  cases hs : s.stationOK <;> cases hn : s.naptOK <;> simp [testInternet, hs, hn]

/-- C1 (amended): the implication `internetOK → naptOK` is preserved by
every watchdog cycle and (re)established by every reachability cycle;
it is however not maintained by the memory-check cycle (see the
counterexample), so it only holds at points following a watchdog or
reachability cycle. -/
theorem C1_reach_invariant (s : St) (e eP : Env) (h : reachInv s) :
    reachInv (connectionWatchdog s e).state ∧ reachInv (testInternet s eP).state :=
  ⟨watchdog_reachInv s e h, testInternet_reachInv s eP⟩

/-- Fully reachable state for the C1 counterexample and witness. -/
def cx1St : St :=
  { stationOK := true, naptOK := true, internetOK := true
    failCount := 0, reconnectCount := 0
    lastCheck := 0, lastWatchdog := 0, lastMemoryCheck := 0, bootTime := 0
    lastBlink := 0, ledState := false, ledLit := false }

/-- Low-memory environment whose post-shed reading stays at 5000 bytes:
below the re-enable bound, above the emergency bound. -/
def cx1Env : Env :=
  { linkConnected := true, connectSuccess := true
    naptInit1 := true, naptInit2 := true
    heap1 := 5000, heap2 := 5000, heap3 := 5000
    modeApSta := true, apStartOK := true
    conn := fun _ _ => false }

/-- C1 counterexample: from a state satisfying the chain, one Low-tier
memory-check cycle sheds forwarding but leaves `internetOK` stale-true,
so after that cycle `internetOK = true` while `naptOK = false`. -/
theorem C1_reach_invariant_cex :
    (cx1St.internetOK = true → cx1St.naptOK = true) ∧
    (checkMemory cx1St cx1Env).restartCalled = false ∧
    (checkMemory cx1St cx1Env).state.internetOK = true ∧
    (checkMemory cx1St cx1Env).state.naptOK = false := by decide

/-- C1 witness: the amended invariant applied at a concrete reachable
state and concrete environments. -/
theorem C1_reach_invariant_witness :
    reachInv (connectionWatchdog cx1St cx1Env).state ∧
    reachInv (testInternet cx1St cx1Env).state :=
  C1_reach_invariant cx1St cx1Env cx1Env (fun _ => rfl)

/-- `enableNAPT` preserves `naptOK → stationOK`: it only ever sets
`naptOK` behind its `stationOK` guard. -/
theorem enableNAPT_fwdInv (s : St) (e : Env) (h : fwdInv s) :
    fwdInv (enableNAPT s e).1 := by
  unfold fwdInv at h ⊢
  cases hs : s.stationOK <;> cases hn : s.naptOK <;>
    cases h1 : e.naptInit1 <;> cases h2 : e.naptInit2 <;>
    simp_all [enableNAPT]

/-- `connectionWatchdog` preserves `naptOK → stationOK`: a down link
clears both flags before any repair, and repairs re-enable NAPT only
after a successful reconnect. -/
theorem watchdog_fwdInv (s : St) (e : Env) (h : fwdInv s) :
    fwdInv (connectionWatchdog s e).state := by
  unfold fwdInv at h ⊢
  cases hl : e.linkConnected <;> cases hs : s.stationOK <;> cases hn : s.naptOK <;>
    cases hc : e.connectSuccess <;> cases h1 : e.naptInit1 <;> cases h2 : e.naptInit2 <;>
    simp_all [connectionWatchdog, connectToRouter, enableNAPT] <;>
    try (split <;> simp_all)

/-- `checkMemory` preserves `naptOK → stationOK`: the shed only clears
`naptOK`, and the re-enable path is guarded by `stationOK`. -/
theorem checkMemory_fwdInv (s : St) (e : Env) (h : fwdInv s) :
    fwdInv (checkMemory s e).state := by
  unfold fwdInv at h ⊢
  by_cases hh1 : e.heap1 < MEM_LOW_THRESHOLD
  · by_cases hh2 : e.heap2 > MEM_REENABLE_THRESHOLD <;>
      cases hs : s.stationOK <;> cases hn : s.naptOK <;>
      cases h1 : e.naptInit1 <;> cases h2 : e.naptInit2 <;>
      simp_all [checkMemory, enableNAPT] <;>
      try (split <;> simp_all)
  · simpa [checkMemory, hh1] using h

/-- `testInternet` preserves `naptOK → stationOK`: it writes neither flag. -/
theorem testInternet_fwdInv (s : St) (e : Env) (h : fwdInv s) :
    fwdInv (testInternet s e).state := by
  unfold fwdInv at h ⊢
  cases hs : s.stationOK <;> cases hn : s.naptOK <;> simp_all [testInternet]

/-- C6 (amended): the implication `naptOK → stationOK` is preserved by
`enableNAPT` (whose guard refuses to set `naptOK` without `stationOK`),
by every watchdog cycle (clearing `stationOK` there also clears
`naptOK`), by every memory-check cycle and by every reachability
cycle; it is however not preserved by the slow cycle's AP re-check,
where a failed `connectToRouter` clears `stationOK` while leaving
`naptOK` stale (see the counterexample). -/
theorem C6_forwarding_invariant (s : St) (e : Env) (h : fwdInv s) :
    fwdInv (enableNAPT s e).1 ∧ fwdInv (connectionWatchdog s e).state ∧
    fwdInv (checkMemory s e).state ∧ fwdInv (testInternet s e).state :=
  ⟨enableNAPT_fwdInv s e h, watchdog_fwdInv s e h,
   checkMemory_fwdInv s e h, testInternet_fwdInv s e h⟩

/-- Healthy state for the C6 counterexample. -/
def cx6St : St :=
  { stationOK := true, naptOK := true, internetOK := true
    failCount := 0, reconnectCount := 0
    lastCheck := 0, lastWatchdog := 0, lastMemoryCheck := 0, bootTime := 0
    lastBlink := 0, ledState := false, ledLit := false }

/-- Environment where the AP+STA mode and the link were both lost and
the fresh `connectToRouter` fails. -/
def cx6Env : Env :=
  { linkConnected := false, connectSuccess := false
    naptInit1 := false, naptInit2 := false
    heap1 := 50000, heap2 := 50000, heap3 := 50000
    modeApSta := false, apStartOK := true
    conn := fun _ _ => false }

/-- C6 counterexample: a slow cycle whose AP re-check reconnect fails
clears `stationOK` but not `naptOK`, so after the cycle `naptOK = true`
while `stationOK = false`. -/
theorem C6_forwarding_invariant_cex :
    (cx6St.naptOK = true → cx6St.stationOK = true) ∧
    (statusCycle cx6St cx6Env).restartCalled = false ∧
    (statusCycle cx6St cx6Env).state.stationOK = false ∧
    (statusCycle cx6St cx6Env).state.naptOK = true := by decide

/-- C6 witness: the amended invariant applied at a concrete healthy
state and environment. -/
theorem C6_forwarding_invariant_witness :
    fwdInv (enableNAPT cx6St cx6Env).1 ∧
    fwdInv (connectionWatchdog cx6St cx6Env).state ∧
    fwdInv (checkMemory cx6St cx6Env).state ∧
    fwdInv (testInternet cx6St cx6Env).state :=
  C6_forwarding_invariant cx6St cx6Env (fun _ => rfl)

/-- C3 (amended): `checkMemory` calls the restart primitive exactly
when the initial reading is below the Low trigger and the final
post-cleanup reading is below the emergency bound — independently of
`stationOK`, `naptOK` and `internetOK`.  An initial reading in the
Emergency tier alone does not force a restart: the decision re-reads
the heap after shedding forwarding. -/
theorem C3_emergency_restart (s : St) (e : Env) :
    (checkMemory s e).restartCalled =
      (decide (e.heap1 < MEM_LOW_THRESHOLD) &&
       decide (e.heap3 < MEM_EMERGENCY_THRESHOLD)) := by
  by_cases hh : e.heap1 < MEM_LOW_THRESHOLD <;> simp [checkMemory, hh]

/-- State for the C3 counterexample: everything healthy but memory. -/
def cx3St : St :=
  { stationOK := true, naptOK := true, internetOK := true
    failCount := 0, reconnectCount := 0
    lastCheck := 0, lastWatchdog := 0, lastMemoryCheck := 0, bootTime := 0
    lastBlink := 0, ledState := false, ledLit := false }

/-- Cycle whose first reading is in the Emergency tier (3000 bytes) but
where shedding forwarding recovers the heap to 5000 bytes. -/
def cx3Env : Env :=
  { linkConnected := true, connectSuccess := true
    naptInit1 := true, naptInit2 := true
    heap1 := 3000, heap2 := 5000, heap3 := 5000
    modeApSta := true, apStartOK := true
    conn := fun _ _ => false }

/-- C3 counterexample: a free-memory reading of 3000 bytes (Emergency
tier) occurs in this cycle, yet no restart is called, because the
post-cleanup re-check reads 5000 bytes. -/
theorem C3_emergency_restart_cex :
    cx3Env.heap1 < MEM_EMERGENCY_THRESHOLD ∧
    (checkMemory cx3St cx3Env).restartCalled = false := by decide

/-- C4 (amended): a Low-tier reading with forwarding enabled sheds
forwarding within that same cycle; forwarding is re-enabled within the
same cycle only when the link is up, the fresh reading strictly exceeds
the 6000-byte re-enable bound and the NAPT enable call succeeds, and it
stays disabled whenever the fresh reading does not clear that bound. -/
theorem C4_low_tier (s : St) (e : Env)
    (hlow : e.heap1 < MEM_LOW_THRESHOLD) (hn : s.naptOK = true) :
    (checkMemory s e).shedNapt = true ∧
    (s.stationOK = true → e.heap2 > MEM_REENABLE_THRESHOLD →
      (e.naptInit1 = true ∨ e.naptInit2 = true) →
      (checkMemory s e).state.naptOK = true) ∧
    (e.heap2 ≤ MEM_REENABLE_THRESHOLD → (checkMemory s e).state.naptOK = false) := by
  refine ⟨by simp [checkMemory, hlow, hn], ?_, ?_⟩
  · intro hs hh2 hinit
    have hcond : MEM_REENABLE_THRESHOLD < e.heap2 := hh2
    cases h1 : e.naptInit1 <;> cases h2 : e.naptInit2 <;>
      simp_all [checkMemory, enableNAPT, hlow, hn, hs, hcond]
  · intro hh2
    have hcond : ¬ (MEM_REENABLE_THRESHOLD < e.heap2) := by omega
    simp [checkMemory, enableNAPT, hlow, hn, hcond]

/-- Forwarding-enabled state for the C4 counterexample. -/
def cx4St : St :=
  { stationOK := true, naptOK := true, internetOK := true
    failCount := 0, reconnectCount := 0
    lastCheck := 0, lastWatchdog := 0, lastMemoryCheck := 0, bootTime := 0
    lastBlink := 0, ledState := false, ledLit := false }

/-- First Low-tier cycle: reading 5000, later readings 5500. -/
def cx4EnvA : Env :=
  { linkConnected := true, connectSuccess := true
    naptInit1 := true, naptInit2 := true
    heap1 := 5000, heap2 := 5500, heap3 := 5500
    modeApSta := true, apStartOK := true
    conn := fun _ _ => false }

/-- Following cycle: all readings 5500 — healthier than 5000, link up. -/
def cx4EnvB : Env :=
  { linkConnected := true, connectSuccess := true
    naptInit1 := true, naptInit2 := true
    heap1 := 5500, heap2 := 5500, heap3 := 5500
    modeApSta := true, apStartOK := true
    conn := fun _ _ => false }

/-- C4 counterexample: after a Low-tier shed at 5000 bytes, a strictly
healthier subsequent reading (5500) with the link up does not re-enable
forwarding — not in that cycle nor in the next one — because 5500 does
not clear the 6000-byte re-enable bound, even though the NAPT enable
call would succeed. -/
theorem C4_low_tier_cex :
    cx4St.naptOK = true ∧ cx4St.stationOK = true ∧
    cx4EnvA.heap1 < MEM_LOW_THRESHOLD ∧
    cx4EnvA.heap1 < cx4EnvA.heap2 ∧
    cx4EnvA.naptInit1 = true ∧
    (checkMemory cx4St cx4EnvA).state.naptOK = false ∧
    (checkMemory (checkMemory cx4St cx4EnvA).state cx4EnvB).state.naptOK = false ∧
    (checkMemory (checkMemory cx4St cx4EnvA).state cx4EnvB).state.stationOK = true := by
  decide

/-- Low-tier cycle whose fresh reading (7000) clears the re-enable
bound and whose NAPT enable succeeds, for the C4 witness. -/
def w4Env : Env :=
  { linkConnected := true, connectSuccess := true
    naptInit1 := true, naptInit2 := true
    heap1 := 5000, heap2 := 7000, heap3 := 7000
    modeApSta := true, apStartOK := true
    conn := fun _ _ => false }

/-- C4 witness: the amended claim at a concrete Low-tier cycle —
forwarding is shed and, the bound being cleared, re-enabled. -/
theorem C4_low_tier_witness :
    (checkMemory cx4St w4Env).shedNapt = true ∧
    (checkMemory cx4St w4Env).state.naptOK = true :=
  ⟨(C4_low_tier cx4St w4Env (by decide) rfl).1,
   (C4_low_tier cx4St w4Env (by decide) rfl).2.1 rfl (by decide) (Or.inl rfl)⟩

/-- All-healthy state sitting in the hysteresis overlap zone. -/
def cx5St : St :=
  { stationOK := true, naptOK := true, internetOK := true
    failCount := 0, reconnectCount := 0
    lastCheck := 0, lastWatchdog := 0, lastMemoryCheck := 0, bootTime := 0
    lastBlink := 0, ledState := false, ledLit := false }

/-- Cycle with every reading at 7000 bytes: above the re-enable bound,
below the Low trigger. -/
def cx5Env : Env :=
  { linkConnected := true, connectSuccess := true
    naptInit1 := true, naptInit2 := true
    heap1 := 7000, heap2 := 7000, heap3 := 7000
    modeApSta := true, apStartOK := true
    conn := fun _ _ => false }

/-- C5 counterexample: the re-enable bound (6000) is not higher than
the Low trigger (8000). -/
theorem C5_hysteresis_cex : ¬ (MEM_LOW_THRESHOLD < MEM_REENABLE_THRESHOLD) := by
  decide

/-- C5 (amended): the re-enable bound sits strictly BELOW the Low-tier
trigger, so the two overlap: at a 7000-byte heap a single `checkMemory`
cycle sheds forwarding and re-enables it again in the same cycle. -/
theorem C5_reenable_below_trigger :
    MEM_REENABLE_THRESHOLD < MEM_LOW_THRESHOLD ∧
    MEM_REENABLE_THRESHOLD < cx5Env.heap1 ∧ cx5Env.heap1 < MEM_LOW_THRESHOLD ∧
    (checkMemory cx5St cx5Env).shedNapt = true ∧
    (checkMemory cx5St cx5Env).state.naptOK = true := by decide

end RangeExtend
